import Mathlib

/-
Verification of the fetch/analyze/persist core of the shopify-war-room
repository (scraper.py, ai_engine.py, worker.py), as a shallow embedding.
Strings are modelled through their character lists; Python floats are
modelled as rationals (IEEE-754 rounding is abstracted away); Python
exceptions are modelled as values of an explicit error type carried in
Except.  Each definition mirrors one function or expression of the source.
-/

namespace WarRoom

/-! ## Character and list helpers (Python str primitives) -/

/-- Whitespace test used by Python str.strip.  CPython strips all Unicode
whitespace; the inputs handled here only involve ASCII whitespace, which
Char.isWhitespace covers. -/
def pySpace (c : Char) : Bool := c.isWhitespace

/-- The backtick character (written by code point to keep source text plain). -/
def btChar : Char := Char.ofNat 96

/-- Python str.strip(): drop whitespace from both ends. -/
def pyStripL (cs : List Char) : List Char :=
  ((cs.dropWhile pySpace).reverse.dropWhile pySpace).reverse

/-- Python str.rstrip("/"): drop trailing slash characters. -/
def rstripSlashL (cs : List Char) : List Char :=
  (cs.reverse.dropWhile (fun c => c == '/')).reverse

/-- Python url.startswith("http"). -/
def startsWithHttpL (cs : List Char) : Bool := cs.take 4 == "http".data

/-- scraper.clean_url: strip whitespace, strip trailing slashes, prepend
the https scheme when the result does not start with "http". -/
def clean_url (u : String) : String :=
  let t := rstripSlashL (pyStripL u.data)
  if startsWithHttpL t then String.mk t else String.mk ("https://".data ++ t)

/-! ## JSON values and a model of Python json.loads

Numbers keep Python's json distinction: a token without fraction or
exponent becomes a Python int, otherwise a float (modelled as a rational;
binary rounding of CPython floats is abstracted).  Object literals keep
their key/value pairs in source order; lookups take the last occurrence of
a key, matching dict construction.  The non-strict extras CPython accepts
(Infinity, NaN) are outside the model and are never exercised here. -/

inductive JVal where
  | null : JVal
  | bool : Bool → JVal
  | jint : Int → JVal
  | jfloat : ℚ → JVal
  | str : String → JVal
  | arr : List JVal → JVal
  | obj : List (String × JVal) → JVal

/-- JSON whitespace accepted between tokens by json.loads. -/
def jsonWs (c : Char) : Bool :=
  c == ' ' || c == Char.ofNat 9 || c == Char.ofNat 10 || c == Char.ofNat 13

def skipWsL (cs : List Char) : List Char := cs.dropWhile jsonWs

/-- The double-quote character. -/
def dqChar : Char := Char.ofNat 34

/-- The backslash character. -/
def bsChar : Char := Char.ofNat 92

def hexVal (c : Char) : Option Nat :=
  if c.isDigit then some (c.toNat - 48)
  else if 97 ≤ c.toNat && c.toNat ≤ 102 then some (c.toNat - 87)
  else if 65 ≤ c.toNat && c.toNat ≤ 70 then some (c.toNat - 55)
  else none

/-- Single-character JSON string escapes. -/
def jsonEsc (c : Char) : Option Char :=
  if c == dqChar then some dqChar
  else if c == bsChar then some bsChar
  else if c == '/' then some '/'
  else if c == 'b' then some (Char.ofNat 8)
  else if c == 'f' then some (Char.ofNat 12)
  else if c == 'n' then some (Char.ofNat 10)
  else if c == 'r' then some (Char.ofNat 13)
  else if c == 't' then some (Char.ofNat 9)
  else none

/-- Body of a JSON string after the opening quote.  Surrogate-pair
recombination of CPython is abstracted: each escape yields one scalar. -/
def parseJStr : Nat → List Char → Option (List Char × List Char)
  | 0, _ => none
  | Nat.succ f, cs =>
    match cs with
    | [] => none
    | c :: rest =>
      if c == dqChar then some ([], rest)
      else if c == bsChar then
        match rest with
        | [] => none
        | e :: r2 =>
          if e == 'u' then
            match r2 with
            | h1 :: h2 :: h3 :: h4 :: r3 =>
              match hexVal h1, hexVal h2, hexVal h3, hexVal h4 with
              | some a, some b, some c2, some d =>
                match parseJStr f r3 with
                | some (s, rem) =>
                    some (Char.ofNat (((a * 16 + b) * 16 + c2) * 16 + d) :: s, rem)
                | none => none
              | _, _, _, _ => none
            | _ => none
          else
            match jsonEsc e with
            | some ec =>
              match parseJStr f r2 with
              | some (s, rem) => some (ec :: s, rem)
              | none => none
            | none => none
      else if c.toNat < 32 then none
      else
        match parseJStr f rest with
        | some (s, rem) => some (c :: s, rem)
        | none => none

def digitsToNat (ds : List Char) : Nat :=
  ds.foldl (fun a c => a * 10 + (c.toNat - 48)) 0

/-- Optional sign; accepts a leading plus or minus. -/
def parseSign : List Char → (Bool × List Char)
  | c :: t =>
      if c == '-' then (true, t)
      else if c == '+' then (false, t)
      else (false, c :: t)
  | [] => (false, [])

/-- Assemble a JSON number token into a Python int or float. -/
def mkNum (neg : Bool) (ids fds : List Char) (isFloat eneg : Bool) (ev : Nat) : JVal :=
  if isFloat then
    let m : ℚ := (digitsToNat ids : ℚ) + (digitsToNat fds : ℚ) / (10 : ℚ) ^ fds.length
    let m2 : ℚ := if eneg then m / (10 : ℚ) ^ ev else m * (10 : ℚ) ^ ev
    JVal.jfloat (if neg then -m2 else m2)
  else
    JVal.jint (if neg then -(digitsToNat ids : Int) else (digitsToNat ids : Int))

/-- JSON number grammar: minus?, int part without leading zeros, optional
fraction, optional exponent.  A token with fraction or exponent parses as a
float, otherwise as an int, as in CPython's json scanner. -/
def parseNumber (cs : List Char) : Option (JVal × List Char) :=
  let sgn := match cs with
    | c :: t => if c == '-' then (true, t) else (false, cs)
    | [] => (false, ([] : List Char))
  match sgn.2 with
  | [] => none
  | c :: t =>
    if ! c.isDigit then none
    else
      let ip := if c == '0' then ([c], t)
                else (sgn.2.takeWhile Char.isDigit, sgn.2.dropWhile Char.isDigit)
      let fp := match ip.2 with
        | d :: t2 =>
          if d == '.' then (t2.takeWhile Char.isDigit, t2.dropWhile Char.isDigit, true)
          else (([] : List Char), ip.2, false)
        | [] => (([] : List Char), ([] : List Char), false)
      if fp.2.2 && fp.1.isEmpty then none
      else
        match fp.2.1 with
        | e :: t3 =>
          if e == 'e' || e == 'E' then
            let es := parseSign t3
            let eds := es.2.takeWhile Char.isDigit
            let r4 := es.2.dropWhile Char.isDigit
            if eds.isEmpty then none
            else some (mkNum sgn.1 ip.1 fp.1 true es.1 (digitsToNat eds), r4)
          else some (mkNum sgn.1 ip.1 fp.1 fp.2.2 false 0, fp.2.1)
        | [] => some (mkNum sgn.1 ip.1 fp.1 fp.2.2 false 0, [])

mutual

/-- Recursive-descent JSON value parser (fuel-indexed). -/
def parseVal : Nat → List Char → Option (JVal × List Char)
  | 0, _ => none
  | Nat.succ f, cs =>
    match skipWsL cs with
    | [] => none
    | c :: rest =>
      if c == Char.ofNat 123 then
        match skipWsL rest with
        | d :: r2 =>
          if d == Char.ofNat 125 then some (JVal.obj [], r2)
          else parseMembers f [] (d :: r2)
        | [] => none
      else if c == '[' then
        match skipWsL rest with
        | d :: r2 =>
          if d == ']' then some (JVal.arr [], r2)
          else parseItems f [] (d :: r2)
        | [] => none
      else if c == dqChar then
        match parseJStr (rest.length + 1) rest with
        | some (s, rem) => some (JVal.str (String.mk s), rem)
        | none => none
      else if c == 't' then
        if (c :: rest).take 4 = "true".data then some (JVal.bool true, (c :: rest).drop 4)
        else none
      else if c == 'f' then
        if (c :: rest).take 5 = "false".data then some (JVal.bool false, (c :: rest).drop 5)
        else none
      else if c == 'n' then
        if (c :: rest).take 4 = "null".data then some (JVal.null, (c :: rest).drop 4)
        else none
      else parseNumber (c :: rest)

/-- Members of an object after the opening brace (first key expected). -/
def parseMembers : Nat → List (String × JVal) → List Char → Option (JVal × List Char)
  | 0, _, _ => none
  | Nat.succ f, acc, cs =>
    match skipWsL cs with
    | c :: rest =>
      if c == dqChar then
        match parseJStr (rest.length + 1) rest with
        | some (k, r2) =>
          match skipWsL r2 with
          | d :: r3 =>
            if d == ':' then
              match parseVal f r3 with
              | some (v, r4) =>
                match skipWsL r4 with
                | e :: r5 =>
                  if e == ',' then parseMembers f (acc ++ [(String.mk k, v)]) r5
                  else if e == Char.ofNat 125 then
                    some (JVal.obj (acc ++ [(String.mk k, v)]), r5)
                  else none
                | [] => none
              | none => none
            else none
          | [] => none
        | none => none
      else none
    | [] => none

/-- Items of an array after the opening bracket (first item expected). -/
def parseItems : Nat → List JVal → List Char → Option (JVal × List Char)
  | 0, _, _ => none
  | Nat.succ f, acc, cs =>
    match parseVal f cs with
    | some (v, r1) =>
      match skipWsL r1 with
      | e :: r2 =>
        if e == ',' then parseItems f (acc ++ [v]) r2
        else if e == ']' then some (JVal.arr (acc ++ [v]), r2)
        else none
      | [] => none
    | none => none

end

/-- json.loads on a character list: parse one value and require that only
whitespace follows it. -/
def jparseL (cs : List Char) : Option JVal :=
  match parseVal (2 * cs.length + 8) cs with
  | some (v, rest) => if skipWsL rest = [] then some v else none
  | none => none

/-! ## Python dynamics: exceptions, truthiness, dict access, coercions -/

/-- The Python exception kinds the modelled code can raise.  apiError
stands for the failures of the external reasoning-service call (network
errors, timeouts, non-success responses) that the worker catches. -/
inductive PyErr where
  | jsonDecodeError : PyErr
  | valueError : PyErr
  | typeError : PyErr
  | attributeError : PyErr
  | keyError : PyErr
  | indexError : PyErr
  | apiError : PyErr
deriving DecidableEq, Repr

/-- Python truthiness of a JSON-parsed value. -/
def jTruthy : JVal → Bool
  | JVal.null => false
  | JVal.bool b => b
  | JVal.jint n => n != 0
  | JVal.jfloat q => q != 0
  | JVal.str s => !s.data.isEmpty
  | JVal.arr l => !l.isEmpty
  | JVal.obj kvs => !kvs.isEmpty

/-- Key lookup in a parsed JSON object.  The parser keeps duplicate pairs
in source order; Python dict construction lets the last occurrence win, so
the reversed list is searched. -/
def dictLookup (kvs : List (String × JVal)) (k : String) : Option JVal :=
  kvs.reverse.lookup k

/-- Python dict.get(k, default) on an object literal. -/
def pyGetD (kvs : List (String × JVal)) (k : String) (d : JVal) : JVal :=
  (dictLookup kvs k).getD d

/-- Python v.get(k, default): AttributeError when v is not a dict. -/
def dictGet (v : JVal) (k : String) (d : JVal) : Except PyErr JVal :=
  match v with
  | JVal.obj kvs => Except.ok (pyGetD kvs k d)
  | _ => Except.error PyErr.attributeError

/-- Python v[0]: first element of a sequence.  Integer subscription of a
dict raises KeyError (JSON object keys are all strings); of a scalar,
TypeError. -/
def subscript0 : JVal → Except PyErr JVal
  | JVal.arr (x :: _) => Except.ok x
  | JVal.arr [] => Except.error PyErr.indexError
  | JVal.str s =>
      match s.data with
      | c :: _ => Except.ok (JVal.str (String.mk [c]))
      | [] => Except.error PyErr.indexError
  | JVal.obj _ => Except.error PyErr.keyError
  | _ => Except.error PyErr.typeError

/-- Python int(s) on a string: optional surrounding whitespace, optional
sign, a nonempty run of ASCII digits.  Underscore separators and non-ASCII
digits accepted by CPython are outside the model (never exercised). -/
def parseIntLit (s : String) : Option Int :=
  let cs := pyStripL s.data
  let sgn := parseSign cs
  let ds := sgn.2.takeWhile Char.isDigit
  let rest := sgn.2.dropWhile Char.isDigit
  if ds.isEmpty || !rest.isEmpty then none
  else some (if sgn.1 then -(digitsToNat ds : Int) else (digitsToNat ds : Int))

/-- Python float(s) on a string: optional whitespace and sign, a decimal
literal with optional fraction and exponent.  The inf/nan literals CPython
accepts have no rational counterpart and are outside the model. -/
def parseFloatLit (s : String) : Option ℚ :=
  let cs := pyStripL s.data
  let sgn := parseSign cs
  let ip := sgn.2.takeWhile Char.isDigit
  let r1 := sgn.2.dropWhile Char.isDigit
  let fp := match r1 with
    | c :: t =>
      if c == '.' then (t.takeWhile Char.isDigit, t.dropWhile Char.isDigit)
      else (([] : List Char), r1)
    | [] => (([] : List Char), ([] : List Char))
  if ip.isEmpty && fp.1.isEmpty then none
  else
    let mant : ℚ := (digitsToNat ip : ℚ) + (digitsToNat fp.1 : ℚ) / (10 : ℚ) ^ fp.1.length
    match fp.2 with
    | [] => some (if sgn.1 then -mant else mant)
    | c :: t =>
      if c == 'e' || c == 'E' then
        let es := parseSign t
        let eds := es.2.takeWhile Char.isDigit
        let r3 := es.2.dropWhile Char.isDigit
        if eds.isEmpty || !r3.isEmpty then none
        else
          let ev := digitsToNat eds
          let scaled := if es.1 then mant / (10 : ℚ) ^ ev else mant * (10 : ℚ) ^ ev
          some (if sgn.1 then -scaled else scaled)
      else none

/-- Truncation toward zero, the behaviour of Python int() on a float. -/
def ratTrunc (q : ℚ) : Int := if 0 ≤ q then Rat.floor q else -Rat.floor (-q)

/-- Python int(x) on a JSON-parsed value: ints pass through, floats
truncate toward zero, bools map to 0/1, numeric strings parse, everything
else raises (ValueError for strings, TypeError otherwise). -/
def pyIntOf : JVal → Except PyErr Int
  | JVal.jint n => Except.ok n
  | JVal.jfloat q => Except.ok (ratTrunc q)
  | JVal.bool b => Except.ok (if b then 1 else 0)
  | JVal.str s =>
      match parseIntLit s with
      | some n => Except.ok n
      | none => Except.error PyErr.valueError
  | _ => Except.error PyErr.typeError

/-- Python float(x) on a JSON-parsed value. -/
def pyFloatOf : JVal → Except PyErr ℚ
  | JVal.jint n => Except.ok (n : ℚ)
  | JVal.jfloat q => Except.ok q
  | JVal.bool b => Except.ok (if b then 1 else 0)
  | JVal.str s =>
      match parseFloatLit s with
      | some q => Except.ok q
      | none => Except.error PyErr.valueError
  | _ => Except.error PyErr.typeError

/-! ## Python str() / repr() rendering of JSON-parsed values

Needed because the source interpolates parsed values into f-strings and
calls str() on the alpha_opportunity field.  Fidelity notes: repr of a
float abstracts CPython's shortest-roundtrip algorithm by a plain decimal
expansion (never exercised by the claims); repr of a string escapes the
common control characters and leaves other characters unchanged. -/

/-- The single-quote character. -/
def sqChar : Char := Char.ofNat 39

def pyEscChar (quote : Char) (c : Char) : String :=
  if c == bsChar then String.mk [bsChar, bsChar]
  else if c == quote then String.mk [bsChar, quote]
  else if c == Char.ofNat 10 then String.mk [bsChar, 'n']
  else if c == Char.ofNat 13 then String.mk [bsChar, 'r']
  else if c == Char.ofNat 9 then String.mk [bsChar, 't']
  else Char.toString c

/-- Python repr of a string: single quotes unless the text contains a
single quote and no double quote. -/
def pyReprStr (s : String) : String :=
  let quote := if s.data.contains sqChar && !s.data.contains dqChar then dqChar else sqChar
  Char.toString quote ++ String.join (s.data.map (pyEscChar quote)) ++ Char.toString quote

/-- Decimal digits of the fractional part of a nonnegative rational,
most significant first, at most the given number of digits. -/
def fracDigitChars : Nat → ℚ → List Char
  | 0, _ => []
  | Nat.succ n, q =>
    if q = 0 then []
    else
      let d := Rat.floor (q * 10)
      Char.ofNat (48 + d.toNat) :: fracDigitChars n (q * 10 - (d : ℚ))

/-- Text form of a float value (decimal expansion; see fidelity note). -/
def pyFloatStr (q : ℚ) : String :=
  let sgn := if q < 0 then "-" else ""
  let a : ℚ := if q < 0 then -q else q
  let ipart := Rat.floor a
  let ds := fracDigitChars 17 (a - (ipart : ℚ))
  let ds2 := (ds.reverse.dropWhile (fun c => c == '0')).reverse
  let frac := if ds2.isEmpty then "0" else String.mk ds2
  sgn ++ toString ipart ++ "." ++ frac

mutual

/-- Python repr() of a JSON-parsed value. -/
def pyRepr : JVal → String
  | JVal.null => "None"
  | JVal.bool b => if b then "True" else "False"
  | JVal.jint n => toString n
  | JVal.jfloat q => pyFloatStr q
  | JVal.str s => pyReprStr s
  | JVal.arr xs => "[" ++ pyReprList xs ++ "]"
  | JVal.obj kvs => "\x7b" ++ pyReprPairs kvs ++ "\x7d"

def pyReprList : List JVal → String
  | [] => ""
  | [x] => pyRepr x
  | x :: y :: t => pyRepr x ++ ", " ++ pyReprList (y :: t)

def pyReprPairs : List (String × JVal) → String
  | [] => ""
  | [kv] => pyReprStr kv.1 ++ ": " ++ pyRepr kv.2
  | kv :: p :: t => pyReprStr kv.1 ++ ": " ++ pyRepr kv.2 ++ ", " ++ pyReprPairs (p :: t)

end

/-- Python str() of a JSON-parsed value: identity on strings, repr-style
rendering otherwise (matching str's behaviour on containers and scalars). -/
def pyStr : JVal → String
  | JVal.str s => s
  | v => pyRepr v

/-! ## scraper.py: product extraction and persistence -/

/-- One normalized product record (the dict built at scraper.py lines
67-73).  The source stores whatever JSON value .get returned for title,
handle and updated_at; those values are rendered to text here with the
same str() conversion the prompt f-string applies downstream (upstream
catalogs supply strings, so the claims never depend on this corner). -/
structure RawProduct where
  product_name : String
  price : ℚ
  currency : String
  product_handle : String
  updated_at : String
deriving DecidableEq, Repr

/-- scraper.py lines 58-65: price of the first variant.  The try block
wraps the whole float(variants[0].get("price", 0)) expression and catches
exactly ValueError and TypeError, turning them into 0.0; any other
exception (AttributeError, KeyError, IndexError) propagates. -/
def variantPrice (variants : JVal) : Except PyErr ℚ :=
  if jTruthy variants then
    match (do
        let v0 ← subscript0 variants
        let pv ← dictGet v0 "price" (JVal.jint 0)
        pyFloatOf pv : Except PyErr ℚ) with
    | Except.ok q => Except.ok q
    | Except.error PyErr.valueError => Except.ok 0
    | Except.error PyErr.typeError => Except.ok 0
    | Except.error e => Except.error e
  else Except.ok 0

/-- scraper.py lines 56-74: one product entry normalized to a record. -/
def normalizeProduct (p : JVal) : Except PyErr RawProduct :=
  match p with
  | JVal.obj kvs => do
      let price ← variantPrice (pyGetD kvs "variants" (JVal.arr []))
      Except.ok {
        product_name := pyStr (pyGetD kvs "title" (JVal.str "Sin título")),
        price := price,
        currency := "USD",
        product_handle := pyStr (pyGetD kvs "handle" (JVal.str "")),
        updated_at := pyStr (pyGetD kvs "updated_at" (JVal.str "")) }
  | _ => Except.error PyErr.attributeError

/-- scraper.py lines 48-78 applied to the parsed response body: read the
top-level products array (default empty), return [] when it is falsy,
otherwise normalize the first MAX_PRODUCTS (= 10) entries in order.  A
truthy non-list products value would be sliced and iterated; every such
shape fails on the first element, modelled as the propagated error. -/
def scrape_products (body : JVal) : Except PyErr (List RawProduct) :=
  match body with
  | JVal.obj kvs =>
    let productsRaw := pyGetD kvs "products" (JVal.arr [])
    if jTruthy productsRaw then
      match productsRaw with
      | JVal.arr l => (l.take 10).mapM normalizeProduct
      | _ => Except.error PyErr.typeError
    else Except.ok []
  | _ => Except.error PyErr.attributeError

/-- One row of the price_history table. -/
structure PriceRow where
  competitor_id : Int
  product_name : String
  price : ℚ
  currency : String
  product_handle : String
  updated_at : String
  timestamp : Nat
deriving DecidableEq, Repr

/-- scraper.save_price_history: datetime.utcnow() is read once into `now`
before the loop (modelled as the explicit argument), then every record of
the batch is inserted carrying that same value. -/
def savePriceHistory (competitor_id : Int) (products : List RawProduct) (now : Nat) :
    List PriceRow :=
  products.map (fun p => {
    competitor_id := competitor_id,
    product_name := p.product_name,
    price := p.price,
    currency := p.currency,
    product_handle := p.product_handle,
    updated_at := p.updated_at,
    timestamp := now })

/-! ## ai_engine.py: prompt statistics, response cleaning, extraction -/

/-- Round half to even, the rounding CPython applies in %.2f formatting
(on the abstracted rational value). -/
def halfEven (q : ℚ) : Int :=
  let f := Rat.floor q
  let r := q - (f : ℚ)
  if r < 1 / 2 then f
  else if 1 / 2 < r then f + 1
  else if f % 2 = 0 then f else f + 1

/-- Python "%.2f"-style rendering of a price. -/
def fmt2 (q : ℚ) : String :=
  let c := halfEven (q * 100)
  let a := c.natAbs
  let sgn := if c < 0 then "-" else ""
  let fr := a % 100
  sgn ++ toString (a / 100) ++ "." ++ (if fr < 10 then "0" else "") ++ toString fr

/-- Python s[:n]. -/
def takeStr (n : Nat) (s : String) : String := String.mk (s.data.take n)

/-- ai_engine.py line 46: the per-product line of the prompt.  Every
record the scraper produces carries the currency and updated_at keys, so
the .get defaults of the source are not reachable here. -/
def productLine (p : RawProduct) : String :=
  "- " ++ p.product_name ++ " | Price: $" ++ fmt2 p.price ++ " " ++ p.currency
    ++ " | Updated: " ++ takeStr 10 p.updated_at

/-- The product listing block of the prompt (one line per record). -/
def productLines (ps : List RawProduct) : List String := ps.map productLine

/-- ai_engine.py line 50: prices of records with strictly positive price. -/
def pricesOf (ps : List RawProduct) : List ℚ :=
  (ps.filter (fun p => decide (0 < p.price))).map (fun p => p.price)

/-- Python sum(l)/len(l) if l else 0. -/
def pyAvg (l : List ℚ) : ℚ := if l = [] then 0 else l.sum / (l.length : ℚ)

/-- Python min(l) if l else 0. -/
def pyMin (l : List ℚ) : ℚ :=
  match l with
  | [] => 0
  | x :: xs => xs.foldl min x

/-- Python max(l) if l else 0. -/
def pyMax (l : List ℚ) : ℚ :=
  match l with
  | [] => 0
  | x :: xs => xs.foldl max x

/-- ai_engine.py line 51. -/
def avg_price (ps : List RawProduct) : ℚ := pyAvg (pricesOf ps)

/-- ai_engine.py line 52. -/
def min_price (ps : List RawProduct) : ℚ := pyMin (pricesOf ps)

/-- ai_engine.py line 53. -/
def max_price (ps : List RawProduct) : ℚ := pyMax (pricesOf ps)

/-- ai_engine.py line 150 applied after the strip of line 146:
re.sub removes one leading fence marker (with optional json tag) at the
very start only, rstrip removes trailing backtick characters, then the
result is stripped again. -/
def subFenceL (cs : List Char) : List Char :=
  if cs.take 7 = "```json".data then cs.drop 7
  else if cs.take 3 = "```".data then cs.drop 3
  else cs

def rstripBtL (cs : List Char) : List Char :=
  (cs.reverse.dropWhile (fun c => c == btChar)).reverse

def clean_textL (cs : List Char) : List Char :=
  pyStripL (rstripBtL (subFenceL (pyStripL cs)))

/-- ai_engine.py lines 159-163: display text of alpha_opportunity.  The
separator in the source is an em dash. -/
def alphaText : JVal → String
  | JVal.obj kvs =>
      pyStr (pyGetD kvs "product" (JVal.str "")) ++ " — "
        ++ pyStr (pyGetD kvs "reason" (JVal.str "")) ++ " ["
        ++ pyStr (pyGetD kvs "suggested_action" (JVal.str "")) ++ "]"
  | v => pyStr v

/-- ai_engine.py line 155: int(analysis_data.get("sentiment_score", 50)). -/
def extractSentiment (d : JVal) : Except PyErr Int := do
  let v ← dictGet d "sentiment_score" (JVal.jint 50)
  pyIntOf v

/-- The fields of one MarketAnalysis row as extracted at lines 154-174
(the json.dumps serialisation of bets and raw_analysis into text columns
is kept as the values themselves), together with the local alpha_opp
value of line 156, which the function reads again in the log statement of
line 178 after the row has been committed. -/
structure Assessment where
  bias : JVal
  sentiment_score : Int
  alpha_opp : JVal
  alpha_text : String
  bets : JVal
  raw_analysis : JVal

/-- ai_engine.py lines 151-163 on the parse outcome: a failed json.loads
is the propagated JSONDecodeError; a parsed value goes through the field
extraction of lines 154-163 (dict.get calls in source order, then the int
coercion, which can itself raise). -/
def normalizeParsed : Option JVal → Except PyErr Assessment
  | none => Except.error PyErr.jsonDecodeError
  | some d => do
      let bias ← dictGet d "market_bias" (JVal.str "NEUTRAL")
      let score ← extractSentiment d
      let alpha ← dictGet d "alpha_opportunity" (JVal.obj [])
      let bets ← dictGet d "high_conviction_bets" (JVal.arr [])
      Except.ok {
        bias := bias,
        sentiment_score := score,
        alpha_opp := alpha,
        alpha_text := alphaText alpha,
        bets := bets,
        raw_analysis := d }

/-- ai_engine.py lines 149-163: clean the raw model text, json.loads it,
extract the fields.  There is no exception handler around json.loads or
the int coercion: their errors propagate to the caller. -/
def normalizeModel (raw : String) : Except PyErr Assessment :=
  normalizeParsed (jparseL (clean_textL raw.data))

/-- Discriminator used to compare normalizer outcomes. -/
def exOk {ε α : Type} : Except ε α → Bool
  | Except.ok _ => true
  | Except.error _ => false

/-! ## worker.py: the scheduler cycle -/

structure Competitor where
  id : Int
  url : String
  name : String
  is_active : Bool

/-- One MarketAnalysis row as inserted by generate_market_thesis. -/
structure AnalysisRow where
  competitor_id : Int
  result : Assessment
  timestamp : Nat

/-- The two append-only tables the cycle writes. -/
structure WarDB where
  price_history : List PriceRow
  analyses : List AnalysisRow

/-- ai_engine.py line 178: the log f-string is evaluated eagerly before
the function returns; alpha_opp.get raises AttributeError when the
alpha_opportunity value is not a dict, and the [:40] slice of the product
subfield raises TypeError when that value is neither a string nor a list.
The bias and sentiment_score interpolations are total str() renderings. -/
def logAlphaStep : JVal → Except PyErr Unit
  | JVal.obj kvs =>
      match pyGetD kvs "product" (JVal.str "?") with
      | JVal.str _ => Except.ok ()
      | JVal.arr _ => Except.ok ()
      | _ => Except.error PyErr.typeError
  | _ => Except.error PyErr.attributeError

/-- ai_engine.py lines 149-179 given the raw reply text: a normalization
failure (parse error, field coercion) raises before any write; on success
the MarketAnalysis row is added and committed (lines 166-176) and only
then does the log statement of line 178 run, whose own exception — raised
after the commit — leaves the row persisted.  Returns the updated
assessment table together with the outcome the caller observes. -/
def generate_market_thesis (raw : String) (competitor_id : Int)
    (rows : List AnalysisRow) (now : Nat) : List AnalysisRow × Except PyErr Unit :=
  match normalizeModel raw with
  | Except.error e => (rows, Except.error e)
  | Except.ok a =>
      (rows ++ [{ competitor_id := competitor_id, result := a, timestamp := now }],
       logAlphaStep a.alpha_opp)

/-- The effectful collaborators of one cycle: scraping a store (scrape
plus network, may raise), the reasoning-service call of ai_engine.py
lines 136-146 that yields the raw reply text (may raise: network failure,
missing credential), and the single wall-clock reading.  Persistence
itself is append-only and total. -/
structure CycleEnv where
  fetch : Competitor → Except PyErr (List RawProduct)
  reply : Competitor → List RawProduct → Except PyErr String
  now : Nat

/-- worker.py lines 49-80, the body of the per-competitor loop: the first
try block covers scraping and observation persistence and turns any error
into `continue`; an empty scrape also continues; the second try block
covers generate_market_thesis and turns any error into `continue`,
keeping whatever rows that call committed before raising. -/
def processTarget (env : CycleEnv) (db : WarDB) (comp : Competitor) : WarDB :=
  match env.fetch comp with
  | Except.error _ => db
  | Except.ok products =>
    if products.isEmpty then db
    else
      let db1 : WarDB :=
        { db with price_history := db.price_history ++ savePriceHistory comp.id products env.now }
      match env.reply comp products with
      | Except.error _ => db1
      | Except.ok raw =>
          { db1 with analyses := (generate_market_thesis raw comp.id db1.analyses env.now).1 }

/-- worker.run_cycle: iterate the active competitors in order, isolating
failures per target. -/
def run_cycle (env : CycleEnv) (comps : List Competitor) (db : WarDB) : WarDB :=
  (comps.filter (fun c => c.is_active)).foldl (processTarget env) db

/-! ## Concrete fixtures used by witnesses -/

/-- A zero-price product record (the price the scraper assigns when the
first variant's value is unusable). -/
def pZero : RawProduct :=
  { product_name := "Gadget", price := 0, currency := "USD",
    product_handle := "gadget", updated_at := "" }

/-- A product record with a positive integer price. -/
def pTen : RawProduct :=
  { product_name := "Widget", price := 10, currency := "USD",
    product_handle := "widget", updated_at := "2024-01-02T03:04:05" }

/-- A cycle environment whose reasoning call succeeds but returns prose,
so the analysis step fails at the json.loads parse, before any commit. -/
def envParseFails : CycleEnv :=
  { fetch := fun _ => Except.ok [pTen],
    reply := fun _ _ => Except.ok "the model replied with prose only",
    now := 7 }

/-- A reply whose alpha_opportunity is a bare string: a shape the
extraction of lines 159-163 handles, but which makes the log statement of
line 178 raise AttributeError after the row is committed. -/
def rawAlphaString : String := "\x7b\"alpha_opportunity\": \"Attack the mid tier\"\x7d"

/-- A cycle environment that reaches the commit-then-raise path of
generate_market_thesis. -/
def envCommitThenRaise : CycleEnv :=
  { fetch := fun _ => Except.ok [pTen],
    reply := fun _ _ => Except.ok rawAlphaString,
    now := 7 }

def compAcme : Competitor :=
  { id := 1, url := "https://acme.example", name := "Acme", is_active := true }

def dbEmpty : WarDB := { price_history := [], analyses := [] }

/-- Undecorated valid model reply used for the C2 counterexample. -/
def c2RawO : String := "\x7b\"market_bias\": \"NEUTRAL\", \"sentiment_score\": 55\x7d"

/-- The same reply wrapped in fences plus leading and trailing commentary. -/
def c2Deco : String := "Here is the report: ```json\n" ++ c2RawO ++ "\n``` Hope it helps."

/-! ## List lemmas -/

theorem head_dropWhile_not (p : Char → Bool) :
    ∀ (l : List Char) (c : Char), (l.dropWhile p).head? = some c → p c = false := by
  intro l
  induction l with
  | nil => intro c h; simp [List.dropWhile] at h
  | cons a t ih =>
      intro c h
      by_cases hpa : p a = true
      · rw [List.dropWhile_cons, if_pos hpa] at h
        exact ih c h
      · rw [List.dropWhile_cons, if_neg hpa] at h
        simp at h
        rw [← h]
        exact Bool.eq_false_iff.mpr hpa

theorem dropWhile_eq_self (p : Char → Bool) (l : List Char)
    (h : ∀ c, l.head? = some c → p c = false) : l.dropWhile p = l := by
  cases l with
  | nil => rfl
  | cons a t =>
      rw [List.dropWhile_cons, if_neg]
      simp [h a rfl]

theorem head?_append_left {α : Type} (l r : List α) (h : l ≠ []) :
    (l ++ r).head? = l.head? := by
  cases l with
  | nil => exact absurd rfl h
  | cons a t => rfl

/-! ## C6: one capture timestamp per persisted batch -/

/-- C6: every observation row produced by one call to the batch-persist
operation carries the capture timestamp taken once for that batch, so all
rows of the batch share an identical timestamp. -/
theorem c6_batch_timestamp (cid : Int) (ps : List RawProduct) (now : Nat) :
    ∀ r ∈ savePriceHistory cid ps now, r.timestamp = now := by
  intro r hr
  simp only [savePriceHistory, List.mem_map] at hr
  obtain ⟨p, _, rfl⟩ := hr
  rfl

/-- Witness for c6_batch_timestamp at a concrete two-product batch. -/
theorem c6_batch_timestamp_witness :
    ({ competitor_id := 1, product_name := "Widget", price := 10, currency := "USD",
       product_handle := "widget", updated_at := "2024-01-02T03:04:05",
       timestamp := 5 } : PriceRow).timestamp = 5 :=
  c6_batch_timestamp 1 [pTen, pZero] 5 _ (by decide)

/-! ## C7: absent or empty products array yields an empty result -/

/-- C7: a catalog body whose top-level products key is absent or holds an
empty array makes the fetcher return the empty list, not an error. -/
theorem c7_empty_catalog (kvs : List (String × JVal))
    (h : dictLookup kvs "products" = none ∨ dictLookup kvs "products" = some (JVal.arr [])) :
    scrape_products (JVal.obj kvs) = Except.ok [] := by
  rcases h with h | h <;> simp [scrape_products, pyGetD, h, jTruthy]

/-- Witness for c7_empty_catalog on a body with no products key. -/
theorem c7_empty_catalog_witness : scrape_products (JVal.obj []) = Except.ok [] :=
  c7_empty_catalog [] (Or.inl rfl)

/-! ## C5: price statistics ignore non-positive prices, listing keeps them -/

/-- C5: the prompt's mean/min/max price statistics are insensitive to
records with non-positive price, such records still contribute their line
to the per-product listing, and when no record has strictly positive
price all three statistics are 0. -/
theorem c5_price_stats (ps : List RawProduct) (p : RawProduct) (hp : p.price ≤ 0) :
    avg_price (p :: ps) = avg_price ps
    ∧ min_price (p :: ps) = min_price ps
    ∧ max_price (p :: ps) = max_price ps
    ∧ productLines (p :: ps) = productLine p :: productLines ps
    ∧ ((∀ q ∈ p :: ps, q.price ≤ 0) →
        avg_price (p :: ps) = 0 ∧ min_price (p :: ps) = 0 ∧ max_price (p :: ps) = 0) := by
  have hfil : pricesOf (p :: ps) = pricesOf ps := by
    simp [pricesOf, List.filter_cons, decide_eq_false hp.not_lt]
  refine ⟨by simp [avg_price, hfil], by simp [min_price, hfil], by simp [max_price, hfil],
      rfl, ?_⟩
  intro hall
  have hnil : pricesOf (p :: ps) = [] := by
    have h2 : (p :: ps).filter (fun q => decide (0 < q.price)) = [] :=
      List.filter_eq_nil_iff.mpr (fun a ha => by simpa using (hall a ha).not_lt)
    simp [pricesOf, h2]
  exact ⟨by simp [avg_price, hnil, pyAvg], by simp [min_price, hnil, pyMin],
      by simp [max_price, hnil, pyMax]⟩

/-- Witness for c5_price_stats: a zero-price record next to a $10 one. -/
theorem c5_price_stats_witness : avg_price [pZero, pTen] = avg_price [pTen] :=
  (c5_price_stats [pTen] pZero (by decide)).1

/-! ## C4: per-target failure isolation in the scheduler cycle -/

/-- C4 counterexample: a reply whose alpha_opportunity is a bare string
makes generate_market_thesis commit the assessment row and then raise
AttributeError in the log statement, so the analysis step fails for the
target while an assessment row has nevertheless been written this cycle;
the observation batch is persisted as well. -/
theorem c4_counterexample :
    (generate_market_thesis rawAlphaString 1 [] 7).2 = Except.error PyErr.attributeError
    ∧ ((generate_market_thesis rawAlphaString 1 [] 7).1).length = 1
    ∧ (processTarget envCommitThenRaise dbEmpty compAcme).analyses.length = 1
    ∧ (processTarget envCommitThenRaise dbEmpty compAcme).price_history
        = savePriceHistory compAcme.id [pTen] 7 :=
  ⟨rfl, rfl, rfl, rfl⟩

/-- C4 amended: errors of the fetch or analysis step are caught per
target and the loop always proceeds; a successful non-empty fetch always
leaves its observation batch persisted.  When the analysis step fails
before the assessment commit (reasoning-call failure, or parse/coercion
failure inside normalization) no assessment row is written; but once
normalization succeeds the row is committed unconditionally, even when the
subsequent log statement raises — so an analysis-step failure can leave an
assessment row written.  A fetch failure leaves the database untouched. -/
theorem c4_cycle_isolation_amended (env : CycleEnv) (db : WarDB) (comp : Competitor)
    (rest : List Competitor) (ps : List RawProduct)
    (hact : comp.is_active = true) (hf : env.fetch comp = Except.ok ps) (hne : ps ≠ []) :
    run_cycle env (comp :: rest) db = run_cycle env rest (processTarget env db comp)
    ∧ (processTarget env db comp).price_history
        = db.price_history ++ savePriceHistory comp.id ps env.now
    ∧ (∀ e, env.reply comp ps = Except.error e →
        (processTarget env db comp).analyses = db.analyses)
    ∧ (∀ raw e, env.reply comp ps = Except.ok raw → normalizeModel raw = Except.error e →
        (processTarget env db comp).analyses = db.analyses)
    ∧ (∀ raw a, env.reply comp ps = Except.ok raw → normalizeModel raw = Except.ok a →
        (processTarget env db comp).analyses = db.analyses ++
          [{ competitor_id := comp.id, result := a, timestamp := env.now }])
    ∧ (∀ comp2 rest2 db2 e2, comp2.is_active = true → env.fetch comp2 = Except.error e2 →
        processTarget env db2 comp2 = db2
        ∧ run_cycle env (comp2 :: rest2) db2 = run_cycle env rest2 db2) := by
  have hpe : ps.isEmpty = false := by
    cases ps with
    | nil => exact absurd rfl hne
    | cons a t => rfl
  refine ⟨by simp [run_cycle, List.filter_cons, hact], ?_, ?_, ?_, ?_, ?_⟩
  · cases hr : env.reply comp ps with
    | error e => simp [processTarget, hf, hpe, hr]
    | ok raw => simp [processTarget, hf, hpe, hr]
  · intro e hr
    simp [processTarget, hf, hpe, hr]
  · intro raw e hr hn
    simp [processTarget, hf, hpe, hr, generate_market_thesis, hn]
  · intro raw a hr hn
    simp [processTarget, hf, hpe, hr, generate_market_thesis, hn]
  · intro comp2 rest2 db2 e2 hact2 hf2
    have hPT2 : processTarget env db2 comp2 = db2 := by simp [processTarget, hf2]
    exact ⟨hPT2, by simp [run_cycle, List.filter_cons, hact2, hPT2]⟩

/-- Witness for c4_cycle_isolation_amended: a parse failure before the
commit writes no assessment row. -/
theorem c4_cycle_isolation_amended_witness :
    (processTarget envParseFails dbEmpty compAcme).analyses = dbEmpty.analyses :=
  (c4_cycle_isolation_amended envParseFails dbEmpty compAcme [] [pTen]
      rfl rfl (List.cons_ne_nil pTen [])).2.2.2.1
    "the model replied with prose only" PyErr.jsonDecodeError rfl rfl

/-! ## C8: first-variant price extraction -/

/-- C8: a product entry without a variants array, with an empty variants
array, or whose first variant lacks a usable numeric price normalizes to
price exactly 0; a numeric first-variant price is taken over, and only the
first variant matters. -/
theorem c8_variant_price (kvs vkvs : List (String × JVal)) :
    (dictLookup kvs "variants" = none →
        Except.map RawProduct.price (normalizeProduct (JVal.obj kvs)) = Except.ok 0)
    ∧ (dictLookup kvs "variants" = some (JVal.arr []) →
        Except.map RawProduct.price (normalizeProduct (JVal.obj kvs)) = Except.ok 0)
    ∧ (∀ rest, dictLookup kvs "variants" = some (JVal.arr (JVal.obj vkvs :: rest)) →
        ((dictLookup vkvs "price" = none →
            Except.map RawProduct.price (normalizeProduct (JVal.obj kvs)) = Except.ok 0)
         ∧ (dictLookup vkvs "price" = some JVal.null →
            Except.map RawProduct.price (normalizeProduct (JVal.obj kvs)) = Except.ok 0)
         ∧ (∀ s, dictLookup vkvs "price" = some (JVal.str s) → parseFloatLit s = none →
            Except.map RawProduct.price (normalizeProduct (JVal.obj kvs)) = Except.ok 0)
         ∧ (∀ n, dictLookup vkvs "price" = some (JVal.jint n) →
            Except.map RawProduct.price (normalizeProduct (JVal.obj kvs)) = Except.ok (n : ℚ))
         ∧ (∀ q, dictLookup vkvs "price" = some (JVal.jfloat q) →
            Except.map RawProduct.price (normalizeProduct (JVal.obj kvs)) = Except.ok q)))
    ∧ (∀ v0 r1 r2, variantPrice (JVal.arr (v0 :: r1)) = variantPrice (JVal.arr (v0 :: r2))) := by
  refine ⟨?_, ?_, ?_, ?_⟩
  · intro h
    simp [normalizeProduct, pyGetD, h, variantPrice, jTruthy, Except.map,
      Except.instMonad, Except.bind]
  · intro h
    simp [normalizeProduct, pyGetD, h, variantPrice, jTruthy, Except.map,
      Except.instMonad, Except.bind]
  · intro rest h
    refine ⟨?_, ?_, ?_, ?_, ?_⟩
    · intro hp
      simp [normalizeProduct, pyGetD, h, variantPrice, jTruthy, subscript0, dictGet,
        hp, pyFloatOf, Except.map, Except.instMonad, Except.bind]
    · intro hp
      simp [normalizeProduct, pyGetD, h, variantPrice, jTruthy, subscript0, dictGet,
        hp, pyFloatOf, Except.map, Except.instMonad, Except.bind]
    · intro s hp hs
      simp [normalizeProduct, pyGetD, h, variantPrice, jTruthy, subscript0, dictGet,
        hp, pyFloatOf, hs, Except.map, Except.instMonad, Except.bind]
    · intro n hp
      simp [normalizeProduct, pyGetD, h, variantPrice, jTruthy, subscript0, dictGet,
        hp, pyFloatOf, Except.map, Except.instMonad, Except.bind]
    · intro q hp
      simp [normalizeProduct, pyGetD, h, variantPrice, jTruthy, subscript0, dictGet,
        hp, pyFloatOf, Except.map, Except.instMonad, Except.bind]
  · intro v0 r1 r2
    simp [variantPrice, jTruthy, subscript0]

/-- Witness for c8_variant_price: entry whose only variant has price null. -/
theorem c8_variant_price_witness :
    Except.map RawProduct.price (normalizeProduct (JVal.obj
      [("title", JVal.str "Widget"),
       ("variants", JVal.arr [JVal.obj [("price", JVal.null)]])])) = Except.ok 0 :=
  ((c8_variant_price [("title", JVal.str "Widget"),
      ("variants", JVal.arr [JVal.obj [("price", JVal.null)]])]
      [("price", JVal.null)]).2.2.1 [] rfl).2.1 rfl

/-! ## C3: sentiment-score extraction -/

/-- C3 counterexample: a reply that parses to an object whose
sentiment_score is null makes the extraction raise (TypeError from int())
instead of defaulting to 50, so non-numeric model output is propagated as
an exception, contrary to the claim. -/
theorem c3_counterexample :
    (jparseL (clean_textL ("\x7b\"sentiment_score\": null\x7d".data))).isSome = true
    ∧ normalizeModel "\x7b\"sentiment_score\": null\x7d" = Except.error PyErr.typeError :=
  ⟨rfl, rfl⟩

/-- C3 amended: on a parsed object, a missing sentiment_score defaults to
50, ints pass through unclamped, floats truncate toward zero, strings go
through the int() literal parse (ValueError when non-numeric), and null or
array values raise TypeError, which propagates. -/
theorem c3_sentiment_coercion (kvs : List (String × JVal)) :
    (dictLookup kvs "sentiment_score" = none →
        extractSentiment (JVal.obj kvs) = Except.ok 50)
    ∧ (∀ n, dictLookup kvs "sentiment_score" = some (JVal.jint n) →
        extractSentiment (JVal.obj kvs) = Except.ok n)
    ∧ (∀ q, dictLookup kvs "sentiment_score" = some (JVal.jfloat q) →
        extractSentiment (JVal.obj kvs) = Except.ok (ratTrunc q))
    ∧ (∀ s, dictLookup kvs "sentiment_score" = some (JVal.str s) →
        extractSentiment (JVal.obj kvs) =
          (match parseIntLit s with
           | some n => Except.ok n
           | none => Except.error PyErr.valueError))
    ∧ (dictLookup kvs "sentiment_score" = some JVal.null →
        extractSentiment (JVal.obj kvs) = Except.error PyErr.typeError)
    ∧ (∀ l, dictLookup kvs "sentiment_score" = some (JVal.arr l) →
        extractSentiment (JVal.obj kvs) = Except.error PyErr.typeError) := by
  refine ⟨?_, ?_, ?_, ?_, ?_, ?_⟩
  · intro h
    simp [extractSentiment, dictGet, pyGetD, h, pyIntOf, Except.instMonad, Except.bind]
  · intro n h
    simp [extractSentiment, dictGet, pyGetD, h, pyIntOf, Except.instMonad, Except.bind]
  · intro q h
    simp [extractSentiment, dictGet, pyGetD, h, pyIntOf, Except.instMonad, Except.bind]
  · intro s h
    simp [extractSentiment, dictGet, pyGetD, h, pyIntOf, Except.instMonad, Except.bind]
  · intro h
    simp [extractSentiment, dictGet, pyGetD, h, pyIntOf, Except.instMonad, Except.bind]
  · intro l h
    simp [extractSentiment, dictGet, pyGetD, h, pyIntOf, Except.instMonad, Except.bind]

/-- Witness for c3_sentiment_coercion: no sentiment_score key gives 50. -/
theorem c3_sentiment_coercion_witness :
    extractSentiment (JVal.obj [("market_bias", JVal.str "NEUTRAL")]) = Except.ok 50 :=
  (c3_sentiment_coercion [("market_bias", JVal.str "NEUTRAL")]).1 rfl

/-! ## C9: alpha-opportunity display text -/

/-- C9 counterexample: the synthesized display string joins the subfields
with an em dash, not the plain hyphen the claim writes. -/
theorem c9_counterexample :
    alphaText (JVal.obj [("product", JVal.str "P"), ("reason", JVal.str "R"),
        ("suggested_action", JVal.str "A")]) = "P — R [A]"
    ∧ alphaText (JVal.obj [("product", JVal.str "P"), ("reason", JVal.str "R"),
        ("suggested_action", JVal.str "A")]) ≠ "P - R [A]" :=
  ⟨rfl, by decide⟩

/-- C9 amended: an object value synthesizes
"\x7bproduct\x7d — \x7breason\x7d [\x7bsuggested_action\x7d]" with empty-string defaults for
missing subfields (each rendered with str()), a bare string is used
verbatim, and any other shape is stringified; the extraction is a total
function, so it never raises. -/
theorem c9_alpha_shapes (a : JVal) :
    (∀ kvs, a = JVal.obj kvs → alphaText a =
        pyStr (pyGetD kvs "product" (JVal.str "")) ++ " — "
          ++ pyStr (pyGetD kvs "reason" (JVal.str "")) ++ " ["
          ++ pyStr (pyGetD kvs "suggested_action" (JVal.str "")) ++ "]")
    ∧ (∀ s, a = JVal.str s → alphaText a = s)
    ∧ ((∀ kvs, a ≠ JVal.obj kvs) → alphaText a = pyStr a) := by
  refine ⟨?_, ?_, ?_⟩
  · intro kvs h
    subst h
    rfl
  · intro s h
    subst h
    rfl
  · intro h
    cases a with
    | obj kvs => exact absurd rfl (h kvs)
    | null => rfl
    | bool b => rfl
    | jint n => rfl
    | jfloat q => rfl
    | str s => rfl
    | arr l => rfl

/-- Witness for c9_alpha_shapes: a bare string is kept verbatim. -/
theorem c9_alpha_shapes_witness :
    alphaText (JVal.str "Attack the mid tier") = "Attack the mid tier" :=
  (c9_alpha_shapes (JVal.str "Attack the mid tier")).2.1 "Attack the mid tier" rfl

/-! ## C1: behaviour on unparsable model text -/

/-- C1 counterexample: a reply that is not JSON after decoration stripping
makes the normalizer raise the parse error to its caller; no degraded
assessment (bias NEUTRAL, score 50, placeholder alpha, empty bets) is ever
produced. -/
theorem c1_counterexample :
    jparseL (clean_textL ("The model replied with prose only.".data)) = none
    ∧ normalizeModel "The model replied with prose only." = Except.error PyErr.jsonDecodeError
    ∧ exOk (normalizeModel "The model replied with prose only.") = false :=
  ⟨rfl, rfl, rfl⟩

/-- C1 amended: whenever the cleaned text fails to parse, the normalizer
propagates a JSONDecodeError to its caller (the scheduler catches it and
skips the assessment for that target); there is no degraded-assessment
fallback path. -/
theorem c1_parse_failure_raises (raw : String)
    (h : jparseL (clean_textL raw.data) = none) :
    normalizeModel raw = Except.error PyErr.jsonDecodeError := by
  simp [normalizeModel, h, normalizeParsed]

/-- Witness for c1_parse_failure_raises on a concrete prose reply. -/
theorem c1_parse_failure_raises_witness :
    normalizeModel "I cannot produce JSON today." = Except.error PyErr.jsonDecodeError :=
  c1_parse_failure_raises "I cannot produce JSON today." rfl

/-! ## C10: idempotence of URL normalization -/

/-- A character list that is already stripped, slash-right-trimmed and
http-prefixed is a fixed point of clean_url. -/
theorem clean_url_fixed (r : List Char)
    (hh : startsWithHttpL r = true)
    (h1 : r.dropWhile pySpace = r)
    (h2 : r.reverse.dropWhile pySpace = r.reverse)
    (h3 : r.reverse.dropWhile (fun c => c == '/') = r.reverse) :
    clean_url (String.mk r) = String.mk r := by
  have hs : pyStripL r = r := by
    unfold pyStripL
    rw [h1, h2, List.reverse_reverse]
  have hr : rstripSlashL r = r := by
    unfold rstripSlashL
    rw [h3, List.reverse_reverse]
  simp [clean_url, hs, hr, hh]

/-- C10 counterexample: the input "/" has a non-empty stripped form, yet
clean_url is not idempotent on it: the first pass yields "https://", the
second collapses the trailing slashes to "https:". -/
theorem c10_counterexample :
    pyStripL ("/".data) ≠ []
    ∧ clean_url "/" = "https://"
    ∧ clean_url (clean_url "/") = "https:"
    ∧ clean_url (clean_url "/") ≠ clean_url "/" := by
  refine ⟨by decide, by decide, by decide, ?_⟩
  intro h
  rw [show clean_url (clean_url "/") = "https:" by decide,
      show clean_url "/" = "https://" by decide] at h
  exact absurd h (by decide)

/-- C10 amended: clean_url is idempotent on every input whose stripped,
slash-right-trimmed form is non-empty and does not end in whitespace (the
claim's hypothesis of a non-empty stripped form is not enough: "/" and
"a /" are counterexamples); the result then also starts with "http". -/
theorem c10_clean_url_idem (u : String)
    (hne : rstripSlashL (pyStripL u.data) ≠ [])
    (hws : ∀ c, (rstripSlashL (pyStripL u.data)).reverse.head? = some c → pySpace c = false) :
    clean_url (clean_url u) = clean_url u
    ∧ startsWithHttpL (clean_url u).data = true := by
  have hslash : ∀ c, (rstripSlashL (pyStripL u.data)).reverse.head? = some c →
      (c == '/') = false := by
    intro c hc
    have hrw : (rstripSlashL (pyStripL u.data)).reverse
        = (pyStripL u.data).reverse.dropWhile (fun c => c == '/') := by
      unfold rstripSlashL
      rw [List.reverse_reverse]
    rw [hrw] at hc
    exact head_dropWhile_not (fun x => x == '/') ((pyStripL u.data).reverse) c hc
  have h3 : (rstripSlashL (pyStripL u.data)).reverse.dropWhile (fun c => c == '/')
      = (rstripSlashL (pyStripL u.data)).reverse := dropWhile_eq_self _ _ hslash
  have h2 : (rstripSlashL (pyStripL u.data)).reverse.dropWhile pySpace
      = (rstripSlashL (pyStripL u.data)).reverse := dropWhile_eq_self _ _ hws
  by_cases hh : startsWithHttpL (rstripSlashL (pyStripL u.data)) = true
  · -- the trimmed form already starts with "http": it is returned as-is
    have hcu : clean_url u = String.mk (rstripSlashL (pyStripL u.data)) := by
      simp [clean_url, hh]
    have hhead : ∀ c, (rstripSlashL (pyStripL u.data)).head? = some c → pySpace c = false := by
      cases hT : rstripSlashL (pyStripL u.data) with
      | nil => intro c hc; simp at hc
      | cons a t =>
          intro c hc
          have ha : a = 'h' := by
            unfold startsWithHttpL at hh
            rw [hT] at hh
            have heq := eq_of_beq hh
            have hlit : "http".data = ['h', 't', 't', 'p'] := rfl
            rw [hlit, List.take_succ_cons] at heq
            exact ((List.cons.injEq _ _ _ _).mp heq).1
          have hca : c = a := by
            simp only [List.head?] at hc
            exact (Option.some.injEq _ _).mp hc |>.symm
          rw [hca, ha]
          decide
    have h1 : (rstripSlashL (pyStripL u.data)).dropWhile pySpace
        = rstripSlashL (pyStripL u.data) := dropWhile_eq_self _ _ hhead
    refine ⟨?_, ?_⟩
    · rw [hcu]
      exact clean_url_fixed _ hh h1 h2 h3
    · rw [hcu]
      exact hh
  · -- the https scheme is prepended
    have hcu : clean_url u = String.mk ("https://".data ++ rstripSlashL (pyStripL u.data)) := by
      simp [clean_url, hh]
    have hh2 : startsWithHttpL ("https://".data ++ rstripSlashL (pyStripL u.data)) = true := rfl
    have h1r : ("https://".data ++ rstripSlashL (pyStripL u.data)).dropWhile pySpace
        = "https://".data ++ rstripSlashL (pyStripL u.data) := by
      apply dropWhile_eq_self
      intro c hc
      rw [show ("https://".data ++ rstripSlashL (pyStripL u.data)).head? = some 'h' from rfl] at hc
      have : 'h' = c := (Option.some.injEq _ _).mp hc
      rw [← this]
      decide
    have htne : (rstripSlashL (pyStripL u.data)).reverse ≠ [] := by
      intro hemp
      exact hne (List.reverse_eq_nil_iff.mp hemp)
    have hhead_r : ("https://".data ++ rstripSlashL (pyStripL u.data)).reverse.head?
        = (rstripSlashL (pyStripL u.data)).reverse.head? := by
      rw [List.reverse_append]
      exact head?_append_left _ _ htne
    have h2r : ("https://".data ++ rstripSlashL (pyStripL u.data)).reverse.dropWhile pySpace
        = ("https://".data ++ rstripSlashL (pyStripL u.data)).reverse := by
      apply dropWhile_eq_self
      intro c hc
      rw [hhead_r] at hc
      exact hws c hc
    have h3r : ("https://".data ++ rstripSlashL (pyStripL u.data)).reverse.dropWhile
          (fun c => c == '/')
        = ("https://".data ++ rstripSlashL (pyStripL u.data)).reverse := by
      apply dropWhile_eq_self
      intro c hc
      rw [hhead_r] at hc
      exact hslash c hc
    refine ⟨?_, ?_⟩
    · rw [hcu]
      exact clean_url_fixed _ hh2 h1r h2r h3r
    · rw [hcu]
      exact hh2

/-- Witness for c10_clean_url_idem on "example.com/". -/
theorem c10_clean_url_idem_witness :
    clean_url (clean_url "example.com/") = clean_url "example.com/" :=
  (c10_clean_url_idem "example.com/" (by decide) (by
    intro c hc
    rw [show (rstripSlashL (pyStripL ("example.com/".data))).reverse.head? = some 'm'
      from rfl] at hc
    have : 'm' = c := (Option.some.injEq _ _).mp hc
    rw [← this]
    decide)).1

/-! ## C2: decoration tolerance of the response cleaning -/

/-- On a whitespace-trimmed object text (first character a brace, last a
closing brace) the cleaning pipeline is the identity. -/
theorem clean_undecorated (sd : List Char)
    (h0 : pyStripL sd = sd)
    (h1 : sd.head? = some (Char.ofNat 123))
    (h2 : sd.reverse.head? = some (Char.ofNat 125)) :
    clean_textL sd = sd := by
  obtain ⟨t, rfl⟩ : ∃ t, sd = Char.ofNat 123 :: t := by
    cases sd with
    | nil => simp at h1
    | cons a t =>
        refine ⟨t, ?_⟩
        have ha : a = Char.ofNat 123 := (Option.some.injEq _ _).mp h1
        rw [ha]
  have h7 : ¬ ((Char.ofNat 123 :: t).take 7 = "```json".data) := by
    intro hEq
    rw [show "```json".data
          = [Char.ofNat 96, Char.ofNat 96, Char.ofNat 96, 'j', 's', 'o', 'n'] from rfl,
        List.take_succ_cons] at hEq
    exact absurd ((List.cons.injEq _ _ _ _).mp hEq).1 (by decide)
  have h3 : ¬ ((Char.ofNat 123 :: t).take 3 = "```".data) := by
    intro hEq
    rw [show "```".data = [Char.ofNat 96, Char.ofNat 96, Char.ofNat 96] from rfl,
        List.take_succ_cons] at hEq
    exact absurd ((List.cons.injEq _ _ _ _).mp hEq).1 (by decide)
  have hf : subFenceL (Char.ofNat 123 :: t) = Char.ofNat 123 :: t := by
    unfold subFenceL
    rw [if_neg h7, if_neg h3]
  have hb : rstripBtL (Char.ofNat 123 :: t) = Char.ofNat 123 :: t := by
    unfold rstripBtL
    rw [dropWhile_eq_self _ _ ?_, List.reverse_reverse]
    intro c hc
    have hcc : Char.ofNat 125 = c := (Option.some.injEq _ _).mp (h2.symm.trans hc)
    rw [← hcc]
    decide
  unfold clean_textL
  rw [h0, hf, hb, h0]

/-- Wrapping a trimmed object text in a json-tagged fence block cleans to
exactly that text: the leading fence marker is removed by the regex, the
trailing backticks by rstrip, the newlines by the final strip. -/
theorem clean_decorated (sd : List Char)
    (h0 : pyStripL sd = sd)
    (h1 : sd.head? = some (Char.ofNat 123))
    (h2 : sd.reverse.head? = some (Char.ofNat 125)) :
    clean_textL (("```json\n".data ++ sd) ++ "\n```".data) = sd := by
  obtain ⟨t, hsd⟩ : ∃ t, sd = Char.ofNat 123 :: t := by
    cases sd with
    | nil => simp at h1
    | cons a t =>
        refine ⟨t, ?_⟩
        have ha : a = Char.ofNat 123 := (Option.some.injEq _ _).mp h1
        rw [ha]
  have hds : ∀ c, ("```json\n".data ++ (sd ++ "\n```".data)).head? = some c →
      pySpace c = false := by
    intro c hc
    rw [show ("```json\n".data ++ (sd ++ "\n```".data)).head? = some (Char.ofNat 96)
        from rfl] at hc
    have := (Option.some.injEq _ _).mp hc
    rw [← this]
    decide
  have hrevhead : (("```json\n".data ++ (sd ++ "\n```".data)).reverse).head?
      = some (Char.ofNat 96) := by
    rw [List.reverse_append, List.reverse_append, List.append_assoc]
    rfl
  have hstrip : pyStripL ("```json\n".data ++ (sd ++ "\n```".data))
      = "```json\n".data ++ (sd ++ "\n```".data) := by
    unfold pyStripL
    rw [dropWhile_eq_self _ _ hds]
    rw [dropWhile_eq_self _ _ (fun c hc => by
      have := (Option.some.injEq _ _).mp (hrevhead.symm.trans hc)
      rw [← this]
      decide)]
    rw [List.reverse_reverse]
  have hfence : subFenceL ("```json\n".data ++ (sd ++ "\n```".data))
      = Char.ofNat 10 :: (sd ++ "\n```".data) := rfl
  have hdrop : ((Char.ofNat 10 :: (sd ++ "\n```".data)).reverse).dropWhile
        (fun c => c == btChar)
      = Char.ofNat 10 :: (sd.reverse ++ [Char.ofNat 10]) := by
    rw [List.reverse_cons, List.reverse_append, List.append_assoc]
    rfl
  have hrst : rstripBtL (Char.ofNat 10 :: (sd ++ "\n```".data))
      = (Char.ofNat 10 :: sd) ++ [Char.ofNat 10] := by
    unfold rstripBtL
    rw [hdrop, List.reverse_cons, List.reverse_append, List.reverse_reverse]
    rfl
  have hd1 : List.dropWhile pySpace ((Char.ofNat 10 :: sd) ++ [Char.ofNat 10])
      = sd ++ [Char.ofNat 10] := by
    rw [hsd]
    rfl
  have hstrip2 : pyStripL ((Char.ofNat 10 :: sd) ++ [Char.ofNat 10]) = sd := by
    unfold pyStripL
    rw [hd1, List.reverse_append]
    rw [show ([Char.ofNat 10] : List Char).reverse = [Char.ofNat 10] from rfl,
        List.singleton_append, List.dropWhile_cons, if_pos (by decide)]
    rw [dropWhile_eq_self pySpace sd.reverse (fun c hc => by
      have := (Option.some.injEq _ _).mp (h2.symm.trans hc)
      rw [← this]
      decide)]
    rw [List.reverse_reverse]
  unfold clean_textL
  rw [List.append_assoc, hstrip, hfence, hrst, hstrip2]

/-- C2 counterexample: the cleaning step removes only a leading fence
marker and trailing backticks, so a decoration that adds leading and
trailing commentary around the fences defeats it: the undecorated object
parses, the decorated text does not, and the two normalizer outcomes
differ.  There is no slicing from the first brace to the last brace. -/
theorem c2_counterexample :
    exOk (normalizeModel c2RawO) = true
    ∧ exOk (normalizeModel c2Deco) = false
    ∧ normalizeModel c2Deco ≠ normalizeModel c2RawO := by
  refine ⟨rfl, rfl, ?_⟩
  intro h
  have hOk := congrArg exOk h
  rw [show exOk (normalizeModel c2Deco) = false from rfl,
      show exOk (normalizeModel c2RawO) = true from rfl] at hOk
  exact Bool.noConfusion hOk

/-- C2 amended: for a whitespace-trimmed JSON object text, wrapping it in
a json-tagged code-fence block (fence markers and newlines only, no
commentary) yields the same normalizer outcome as the undecorated text;
arbitrary leading or trailing commentary is not tolerated (see the
counterexample). -/
theorem c2_fence_decoration (s : String)
    (h0 : pyStripL s.data = s.data)
    (h1 : s.data.head? = some (Char.ofNat 123))
    (h2 : s.data.reverse.head? = some (Char.ofNat 125)) :
    normalizeModel ("```json\n" ++ s ++ "\n```") = normalizeModel s := by
  obtain ⟨sd⟩ := s
  show normalizeParsed (jparseL (clean_textL (("```json\n".data ++ sd) ++ "\n```".data)))
      = normalizeParsed (jparseL (clean_textL sd))
  rw [clean_decorated sd h0 h1 h2, clean_undecorated sd h0 h1 h2]

/-- Witness for c2_fence_decoration on a concrete object reply. -/
theorem c2_fence_decoration_witness :
    normalizeModel ("```json\n" ++ "\x7b\"sentiment_score\": 60\x7d" ++ "\n```")
      = normalizeModel "\x7b\"sentiment_score\": 60\x7d" :=
  c2_fence_decoration "\x7b\"sentiment_score\": 60\x7d" rfl rfl rfl

end WarRoom
